import Mathlib

/-!
Shallow embedding of the blockstore abstraction layer of
src/blockstore/rust/blockstore/src/blockstore/mod.rs: the Reader, Writer and
Deleter capability contracts, the OptimizedBlockStoreWriter contract, the
blanket implementation that derives a plain Writer from an optimized one, and
the block data invariant wrapper generated by the create_block_data_wrapper
macro. Traits become structures of operations over an explicit store state;
possible panics (failed assertions, slice length mismatches) are made explicit
through the PanicOr type.
-/

/-- A byte of block content, modelled as a natural number. -/
abbrev Byte := Nat

/-- Outcome of a computation that can panic (a failed assertion or a slice
length mismatch): either a panic, which aborts before producing a value, or a
normal value. -/
inductive PanicOr (α : Type) where
  | panic : PanicOr α
  | ok : α → PanicOr α
deriving DecidableEq

/-- Sequencing for possibly-panicking computations: a panic aborts the rest. -/
def PanicOr.bind {α β : Type} : PanicOr α → (α → PanicOr β) → PanicOr β
  | .panic, _ => .panic
  | .ok a, f => f a

/-- Opaque error of the underlying storage (the anyhow errors of the source),
carrying an arbitrary code. -/
inductive IoError where
  | ioError : Nat → IoError
deriving DecidableEq

/-- Modelled from the spec: BLOCKID_LEN is re-exported from the cppbridge
module, which is not among the given sources; the spec fixes it as a
module-wide compile-time constant giving the byte length of a block id. -/
def BLOCKID_LEN : Nat := 16

/-- Modelled from the spec: BlockId is re-exported from the cppbridge module,
which is not among the given sources. The spec describes it as a fixed-length
opaque binary identifier with value equality, so it is a list of bytes of
length BLOCKID_LEN. -/
abbrev BlockId := { l : List Byte // l.length = BLOCKID_LEN }

/-- Modelled from the spec: crate::data::Data is not among the given sources.
The spec describes it as an owned byte buffer that may carry hidden capacity
in front of the visible region, so that a header can later be prepended
without copying; it is modelled as the pair of the hidden-slack bytes and the
visible bytes. -/
structure Data where
  hiddenSlack : List Byte
  visible : List Byte
deriving DecidableEq

/-- Modelled from the spec: the read-only byte view of a Data buffer shows
exactly its visible bytes; the hidden slack lies outside the view. -/
def Data.as_ref (d : Data) : List Byte := d.visible

/-- Modelled from the spec: the mutable byte view of a Data buffer covers
exactly its visible bytes; the hidden slack lies outside the view. -/
def Data.as_mut_view (d : Data) : List Byte := d.visible

/-- Modelled from the spec: copy_from_slice on the mutable view of a Data
buffer overwrites exactly the visible region with the source bytes, leaving
the hidden slack untouched; like the underlying slice operation it panics
when the source length differs from the view length. -/
def Data.copy_from_slice (d : Data) (src : List Byte) : PanicOr Data :=
  if src.length = d.as_mut_view.length then PanicOr.ok ⟨d.hiddenSlack, src⟩
  else PanicOr.panic

/-- The block data wrapper generated by the create_block_data_wrapper macro
(source lines 84 to 110): a struct holding a single Data field (field 0 of
the generated tuple struct). The macro body names the view implementations
for the type BlockData, so the generated shape is unique and this structure
embeds it. -/
structure BlockData where
  raw : Data
deriving DecidableEq

/-- IBlockData new of the generated wrapper: Self(data). -/
def BlockData.new (data : Data) : BlockData := ⟨data⟩

/-- IBlockData extract of the generated wrapper: self.0, consuming the
wrapper and surrendering the raw buffer. -/
def BlockData.extract (b : BlockData) : Data := b.raw

/-- The AsRef view of the generated wrapper: self.0.as_ref(). -/
def BlockData.as_ref (b : BlockData) : List Byte := b.raw.as_ref

/-- The bytes covered by the AsMut view of the generated wrapper:
self.0.as_mut(). -/
def BlockData.as_mut_view (b : BlockData) : List Byte := b.raw.as_mut_view

/-- Writing through the mutable view of the generated wrapper:
as_mut().copy_from_slice(src). -/
def BlockData.copy_from_slice (b : BlockData) (src : List Byte) :
    PanicOr BlockData :=
  (b.raw.copy_from_slice src).bind fun d => PanicOr.ok (BlockData.new d)

/-- The BlockStoreReader capability (source lines 8 to 16), over an explicit
store state S. The lazy id iterator is modelled as a list since the embedding
is pure. -/
structure BlockStoreReader (S : Type) where
  load : S → BlockId → Except IoError (Option Data)
  num_blocks : S → Except IoError Nat
  estimate_num_free_bytes : S → Except IoError Nat
  block_size_from_physical_block_size : S → Nat → Except IoError Nat
  all_blocks : S → Except IoError (List BlockId)

/-- The BlockStoreDeleter capability (source lines 18 to 21). -/
structure BlockStoreDeleter (S : Type) where
  remove : S → BlockId → Except IoError (S × Bool)

/-- The BlockStoreWriter capability (source lines 23 to 27). PanicOr records
that a writer call may also panic; the derived bridging writer does so on a
contract violation. -/
structure BlockStoreWriter (S : Type) where
  try_create : S → BlockId → List Byte → PanicOr (Except IoError (S × Bool))
  store : S → BlockId → List Byte → PanicOr (Except IoError S)

/-- The IBlockData trait (source lines 79 to 82) together with the AsRef and
AsMut views its bound requires, packaged as explicit operations on a block
data type BD. -/
structure IBlockDataOps (BD : Type) where
  new : Data → BD
  extract : BD → Data
  as_ref : BD → List Byte
  copy_from_slice : BD → List Byte → PanicOr BD

/-- The OptimizedBlockStoreWriter capability (source lines 29 to 45): an
associated block data type BD with its IBlockData operations, the allocate
function, and the optimized create and store calls. -/
structure OptimizedBlockStoreWriter (BD S : Type) where
  ops : IBlockDataOps BD
  allocate : Nat → BD
  try_create_optimized : S → BlockId → BD → Except IoError (S × Bool)
  store_optimized : S → BlockId → BD → Except IoError S

/-- The IBlockData operations of the wrapper generated by
create_block_data_wrapper (source lines 84 to 110). -/
def blockDataOps : IBlockDataOps BlockData where
  new := BlockData.new
  extract := BlockData.extract
  as_ref := BlockData.as_ref
  copy_from_slice := BlockData.copy_from_slice

/-- The blanket implementation of BlockStoreWriter for every
OptimizedBlockStoreWriter (source lines 47 to 62): allocate a block data
buffer for data.len() bytes, assert that its read-only view has exactly that
length (a failed assertion is a panic), copy the bytes in through the mutable
view, and delegate to the optimized call. -/
def derivedWriter {BD S : Type} (B : OptimizedBlockStoreWriter BD S) :
    BlockStoreWriter S where
  try_create := fun s id data =>
    let block_data := B.allocate data.length
    if (B.ops.as_ref block_data).length = data.length then
      (B.ops.copy_from_slice block_data data).bind fun bd =>
        PanicOr.ok (B.try_create_optimized s id bd)
    else PanicOr.panic
  store := fun s id data =>
    let block_data := B.allocate data.length
    if (B.ops.as_ref block_data).length = data.length then
      (B.ops.copy_from_slice block_data data).bind fun bd =>
        PanicOr.ok (B.store_optimized s id bd)
    else PanicOr.panic

/-- The combined BlockStore capability (source line 64): exactly the three
supertrait capabilities and no operations of its own. -/
structure BlockStore (S : Type) extends
  BlockStoreReader S, BlockStoreWriter S, BlockStoreDeleter S

/-- Modelled from the spec: the hidden slack a backend reserves is
backend-specific; the modelled in-memory backend reserves this many bytes. -/
def inMemorySlack : Nat := 8

/-- Modelled from the spec: the inmemory backend module is not among the
given sources; its state is an association list from block ids to the stored
buffers. -/
abbrev InMemoryState := List (BlockId × Data)

/-- Modelled from the spec: the in-memory implementation of the
OptimizedBlockStoreWriter capability. allocate reserves the hidden slack and
a zeroed visible view of the requested size; try_create_optimized inserts
only when the id is absent; store_optimized unconditionally replaces. -/
def inMemoryOptimized : OptimizedBlockStoreWriter BlockData InMemoryState where
  ops := blockDataOps
  allocate := fun n =>
    BlockData.new ⟨List.replicate inMemorySlack 0, List.replicate n 0⟩
  try_create_optimized := fun s id bd =>
    if s.any (fun p => p.1 == id) then Except.ok (s, false)
    else Except.ok ((id, bd.extract) :: s, true)
  store_optimized := fun s id bd =>
    Except.ok ((id, bd.extract) :: s.filter (fun p => !(p.1 == id)))

/-- Modelled from the spec: load of the in-memory backend returns the stored
buffer when the id is present and a successful none when it is absent;
absence is never an error. -/
def inMemoryLoad (s : InMemoryState) (id : BlockId) :
    Except IoError (Option Data) :=
  Except.ok ((s.find? (fun p => p.1 == id)).map Prod.snd)

/-- A deliberately broken backend whose allocate returns one visible byte more
than requested; it exercises the contract-violation path of the bridging
adapter. -/
def brokenAllocate : OptimizedBlockStoreWriter BlockData InMemoryState :=
  { inMemoryOptimized with
      allocate := fun n => BlockData.new ⟨[], List.replicate (n + 1) 0⟩ }

/-- The broken backend with different optimized write implementations; the
bridging adapter treats it identically to brokenAllocate whenever the
allocation contract is violated. -/
def brokenAllocateAlt : OptimizedBlockStoreWriter BlockData InMemoryState :=
  { brokenAllocate with
      try_create_optimized := fun s _ _ => Except.ok (s, false)
      store_optimized := fun _ _ _ => Except.error (IoError.ioError 1) }

/-- A fixed concrete block id made of zero bytes, for concrete instances. -/
def idZero : BlockId := ⟨List.replicate BLOCKID_LEN 0, by simp⟩

/-- Modelled from the spec: the allocate contract every backend must satisfy,
namely reserving some backend-specific hidden slack while giving the visible
view exactly the requested size; the concrete backend modules (inmemory,
ondisk, encrypted, integrity, caching) are not among the given sources. -/
def specAllocate (slack n : Nat) : BlockData :=
  BlockData.new ⟨List.replicate slack 0, List.replicate n 0⟩

/-- Helper: when the assertion comparing the allocated view length with the
data length fails, both derived writer calls panic. -/
theorem derivedWriter_panic_of_len_ne {BD S : Type}
    (B : OptimizedBlockStoreWriter BD S) (s : S) (id : BlockId)
    (data : List Byte)
    (h : (B.ops.as_ref (B.allocate data.length)).length ≠ data.length) :
    (derivedWriter B).try_create s id data = PanicOr.panic ∧
    (derivedWriter B).store s id data = PanicOr.panic := by
  constructor <;> simp [derivedWriter, h]

/-- Helper: with the generated wrapper, when the read-only view of a buffer
has exactly the length of the data, copying the data in through the mutable
view succeeds and replaces exactly the visible region. -/
theorem blockData_copy_ok (b : BlockData) (data : List Byte)
    (h : (BlockData.as_ref b).length = data.length) :
    BlockData.copy_from_slice b data
      = PanicOr.ok (BlockData.new ⟨b.raw.hiddenSlack, data⟩) := by
  have h2 : data.length = b.raw.as_mut_view.length := by
    simpa [BlockData.as_ref, Data.as_ref, Data.as_mut_view] using h.symm
  simp [BlockData.copy_from_slice, Data.copy_from_slice, h2, PanicOr.bind]

/-- C1: for every backend over the generated wrapper type, every state, id
and data, when the allocation contract holds at this length, the derived
try_create allocates a buffer of length data.length, copies the data into
its visible view, and returns exactly try_create_optimized applied to that
buffer. -/
theorem derived_try_create_delegates {S : Type}
    (B : OptimizedBlockStoreWriter BlockData S) (h0 : B.ops = blockDataOps)
    (s : S) (id : BlockId) (data : List Byte)
    (h1 : (BlockData.as_ref (B.allocate data.length)).length = data.length) :
    BlockData.as_ref
        (BlockData.new ⟨(B.allocate data.length).extract.hiddenSlack, data⟩)
      = data ∧
    (derivedWriter B).try_create s id data
      = PanicOr.ok (B.try_create_optimized s id
          (BlockData.new
            ⟨(B.allocate data.length).extract.hiddenSlack, data⟩)) := by
  refine ⟨rfl, ?_⟩
  simp [derivedWriter, h0, blockDataOps, h1, blockData_copy_ok _ _ h1,
    PanicOr.bind, BlockData.extract]

/-- Witness for C1 at the modelled in-memory backend on concrete inputs. -/
theorem derived_try_create_delegates_witness :
    BlockData.as_ref (BlockData.new
        ⟨(inMemoryOptimized.allocate (List.length [3, 4])).extract.hiddenSlack,
          [3, 4]⟩) = [3, 4] ∧
    (derivedWriter inMemoryOptimized).try_create [] idZero [3, 4]
      = PanicOr.ok (inMemoryOptimized.try_create_optimized [] idZero
          (BlockData.new
            ⟨(inMemoryOptimized.allocate
                (List.length [3, 4])).extract.hiddenSlack, [3, 4]⟩)) :=
  derived_try_create_delegates inMemoryOptimized rfl [] idZero [3, 4]
    (by decide)

/-- C2: for every backend over the generated wrapper type, every state, id
and data, when the allocation contract holds at this length, the derived
store allocates a buffer of length data.length, copies the data into its
visible view, and returns exactly store_optimized applied to that buffer. -/
theorem derived_store_delegates {S : Type}
    (B : OptimizedBlockStoreWriter BlockData S) (h0 : B.ops = blockDataOps)
    (s : S) (id : BlockId) (data : List Byte)
    (h1 : (BlockData.as_ref (B.allocate data.length)).length = data.length) :
    BlockData.as_ref
        (BlockData.new ⟨(B.allocate data.length).extract.hiddenSlack, data⟩)
      = data ∧
    (derivedWriter B).store s id data
      = PanicOr.ok (B.store_optimized s id
          (BlockData.new
            ⟨(B.allocate data.length).extract.hiddenSlack, data⟩)) := by
  refine ⟨rfl, ?_⟩
  simp [derivedWriter, h0, blockDataOps, h1, blockData_copy_ok _ _ h1,
    PanicOr.bind, BlockData.extract]

/-- Witness for C2 at the modelled in-memory backend on concrete inputs. -/
theorem derived_store_delegates_witness :
    BlockData.as_ref (BlockData.new
        ⟨(inMemoryOptimized.allocate (List.length [5, 6])).extract.hiddenSlack,
          [5, 6]⟩) = [5, 6] ∧
    (derivedWriter inMemoryOptimized).store [] idZero [5, 6]
      = PanicOr.ok (inMemoryOptimized.store_optimized [] idZero
          (BlockData.new
            ⟨(inMemoryOptimized.allocate
                (List.length [5, 6])).extract.hiddenSlack, [5, 6]⟩)) :=
  derived_store_delegates inMemoryOptimized rfl [] idZero [5, 6] (by decide)

/-- C3: for the wrapper type generated by create_block_data_wrapper,
extracting a freshly wrapped raw buffer gives back exactly that buffer:
extract composed with new is the identity on Data. -/
theorem blockData_extract_new (d : Data) :
    BlockData.extract (BlockData.new d) = d := rfl

/-- C4: in the derived writer, under the precondition that allocate always
returns a view of exactly the requested length, the assertion never fails
and both derived calls always reach the delegated optimized call; when the
lengths mismatch instead, the result is a panic, never a recoverable error
value. -/
theorem derived_writer_assert_contract {S : Type}
    (B : OptimizedBlockStoreWriter BlockData S) (h0 : B.ops = blockDataOps)
    (hpre : ∀ n, (BlockData.as_ref (B.allocate n)).length = n) :
    (∀ (s : S) (id : BlockId) (data : List Byte), ∃ buf : BlockData,
      (derivedWriter B).try_create s id data
        = PanicOr.ok (B.try_create_optimized s id buf) ∧
      (derivedWriter B).store s id data
        = PanicOr.ok (B.store_optimized s id buf)) ∧
    (∀ (C : OptimizedBlockStoreWriter BlockData S) (s : S) (id : BlockId)
        (data : List Byte),
      (C.ops.as_ref (C.allocate data.length)).length ≠ data.length →
      (derivedWriter C).try_create s id data = PanicOr.panic ∧
      (derivedWriter C).store s id data = PanicOr.panic) := by
  constructor
  · intro s id data
    refine ⟨BlockData.new ⟨(B.allocate data.length).extract.hiddenSlack, data⟩,
      ?_, ?_⟩ <;>
      simp [derivedWriter, h0, blockDataOps, hpre data.length,
        blockData_copy_ok _ _ (hpre data.length), PanicOr.bind,
        BlockData.extract]
  · intro C s id data h
    exact derivedWriter_panic_of_len_ne C s id data h

/-- Witness for C4: the in-memory backend honors the allocation contract so
both derived calls delegate, while a broken allocation makes both panic. -/
theorem derived_writer_assert_contract_witness :
    (∃ buf : BlockData,
      (derivedWriter inMemoryOptimized).try_create [] idZero [7]
        = PanicOr.ok (inMemoryOptimized.try_create_optimized [] idZero buf) ∧
      (derivedWriter inMemoryOptimized).store [] idZero [7]
        = PanicOr.ok (inMemoryOptimized.store_optimized [] idZero buf)) ∧
    ((derivedWriter brokenAllocate).try_create [] idZero [7]
        = PanicOr.panic ∧
      (derivedWriter brokenAllocate).store [] idZero [7] = PanicOr.panic) := by
  have H := derived_writer_assert_contract inMemoryOptimized rfl
    (fun n => by
      simp [inMemoryOptimized, BlockData.as_ref, BlockData.new, Data.as_ref])
  exact ⟨H.1 [] idZero [7], H.2 brokenAllocate [] idZero [7] (by decide)⟩

/-- C5: the modelled allocate contract gives a visible view of length exactly
the requested size, independent of the backend-specific hidden slack. -/
theorem allocate_visible_length (slack n : Nat) :
    (BlockData.as_ref (specAllocate slack n)).length = n := by
  simp [specAllocate, BlockData.as_ref, BlockData.new, Data.as_ref]

/-- C6: both views of a generated wrapper present exactly the visible bytes
of the wrapped buffer, so the hidden slack is neither readable through the
read-only view nor writable through the mutable view: overwriting through
the mutable view replaces exactly the visible region and leaves the hidden
slack unchanged. -/
theorem blockData_views_exact (d : Data) (src : List Byte)
    (h : src.length = d.visible.length) :
    BlockData.as_ref (BlockData.new d) = d.visible ∧
    BlockData.as_mut_view (BlockData.new d) = d.visible ∧
    BlockData.copy_from_slice (BlockData.new d) src
      = PanicOr.ok (BlockData.new ⟨d.hiddenSlack, src⟩) := by
  refine ⟨rfl, rfl, ?_⟩
  simp [BlockData.copy_from_slice, Data.copy_from_slice, Data.as_mut_view,
    BlockData.new, PanicOr.bind, h]

/-- Witness for C6 on a concrete buffer with one hidden byte. -/
theorem blockData_views_exact_witness :
    BlockData.as_ref (BlockData.new ⟨[1], [2, 3]⟩) = [2, 3] ∧
    BlockData.as_mut_view (BlockData.new ⟨[1], [2, 3]⟩) = [2, 3] ∧
    BlockData.copy_from_slice (BlockData.new ⟨[1], [2, 3]⟩) [4, 5]
      = PanicOr.ok (BlockData.new ⟨[1], [4, 5]⟩) :=
  blockData_views_exact ⟨[1], [2, 3]⟩ [4, 5] (by decide)

/-- C8: the load result type separates absence from failure, so every load
result is a successful none, a successful stored buffer, or an error; the
modelled in-memory load reports an absent id as the successful none result,
never as an error. -/
theorem load_absence_is_not_error (s : InMemoryState) (id : BlockId)
    (h : ∀ p ∈ s, p.1 ≠ id) :
    inMemoryLoad s id = Except.ok none ∧
    (∀ e : IoError, inMemoryLoad s id ≠ Except.error e) ∧
    (∀ r : Except IoError (Option Data),
      r = Except.ok none ∨ (∃ d, r = Except.ok (some d)) ∨
      ∃ e, r = Except.error e) := by
  have hfind : s.find? (fun p => p.1 == id) = none := by
    rw [List.find?_eq_none]
    intro x hx
    simpa using h x hx
  refine ⟨?_, ?_, ?_⟩
  · simp [inMemoryLoad, hfind]
  · intro e
    simp [inMemoryLoad, hfind]
  · intro r
    match r with
    | .error e => exact Or.inr (Or.inr ⟨e, rfl⟩)
    | .ok none => exact Or.inl rfl
    | .ok (some d) => exact Or.inr (Or.inl ⟨d, rfl⟩)

/-- Witness for C8 on the empty store. -/
theorem load_absence_is_not_error_witness :
    inMemoryLoad [] idZero = Except.ok none ∧
    (∀ e : IoError, inMemoryLoad [] idZero ≠ Except.error e) ∧
    (∀ r : Except IoError (Option Data),
      r = Except.ok none ∨ (∃ d, r = Except.ok (some d)) ∨
      ∃ e, r = Except.error e) :=
  load_absence_is_not_error [] idZero (by simp)

/-- C9: a BlockStore is exactly the composition of the reader, writer and
deleter capabilities: the map sending a BlockStore to its three capability
parts is a bijection. -/
theorem blockStore_is_composition (S : Type) :
    Function.Bijective (fun bs : BlockStore S =>
      (bs.toBlockStoreReader, bs.toBlockStoreWriter, bs.toBlockStoreDeleter)) := by
  constructor
  · intro a b hab
    cases a; cases b
    simp only [Prod.mk.injEq] at hab
    simp [hab.1, hab.2.1, hab.2.2]
  · intro x
    exact ⟨⟨x.1, x.2.1, x.2.2⟩, rfl⟩

/-- C10: when the allocated visible length differs from the data length, the
derived try_create and store panic before invoking the optimized calls: the
result is a panic carrying no successor state, and it does not depend on the
optimized write implementations of the backend. -/
theorem derived_writer_mismatch_panics {BD S : Type}
    (B C : OptimizedBlockStoreWriter BD S) (s : S) (id : BlockId)
    (data : List Byte) (hops : C.ops = B.ops)
    (halloc : C.allocate = B.allocate)
    (h : (B.ops.as_ref (B.allocate data.length)).length ≠ data.length) :
    (derivedWriter B).try_create s id data = PanicOr.panic ∧
    (derivedWriter B).store s id data = PanicOr.panic ∧
    (derivedWriter C).try_create s id data
      = (derivedWriter B).try_create s id data ∧
    (derivedWriter C).store s id data
      = (derivedWriter B).store s id data := by
  have hB := derivedWriter_panic_of_len_ne B s id data h
  have hC := derivedWriter_panic_of_len_ne C s id data
    (by rw [hops, halloc]; exact h)
  exact ⟨hB.1, hB.2, by rw [hC.1, hB.1], by rw [hC.2, hB.2]⟩

/-- Witness for C10: two broken backends sharing the same bad allocation but
with different optimized calls behave identically, both panicking. -/
theorem derived_writer_mismatch_panics_witness :
    (derivedWriter brokenAllocate).try_create [] idZero [1, 2]
      = PanicOr.panic ∧
    (derivedWriter brokenAllocate).store [] idZero [1, 2] = PanicOr.panic ∧
    (derivedWriter brokenAllocateAlt).try_create [] idZero [1, 2]
      = (derivedWriter brokenAllocate).try_create [] idZero [1, 2] ∧
    (derivedWriter brokenAllocateAlt).store [] idZero [1, 2]
      = (derivedWriter brokenAllocate).store [] idZero [1, 2] :=
  derived_writer_mismatch_panics brokenAllocate brokenAllocateAlt [] idZero
    [1, 2] rfl rfl (by decide)
